import Mathlib

/-
Verification of the Item CRUD service (app/crud.py, app/main.py, app/database.py).

The repository is a FastAPI application over a SQLite table of Items.  The
embedding models the committed table as a `List Item` in insertion order
(SQLite returns rows of an un-ORDER-BY'd SELECT in rowid order, which
coincides with insertion order while ids are auto-assigned), a SQLAlchemy
session as the committed table plus a list of pending (un-committed) write
operations, and storage failures as an injected `Option StorageErr` fault
that makes the commit (or, for reads, the query) raise.  Fallible Python
functions become functions into `Except ItemCRUDError`.
-/

set_option autoImplicit false

namespace ItemApp

/-- Modelled from the spec: `app/models.py` is not among the source files;
per the spec's data model, `Item` is the sole entity, with `id` an
integer server-generated unique primary key (absent before creation,
hence `Option`) and `name` a required string.  Field values set through
the update payload are assumed well-typed (a Python `setattr` storing an
ill-typed value is not representable in this typed structure). -/
structure Item where
  id : Option Nat
  name : String
deriving Repr, DecidableEq

/-- The exception classes that `app/crud.py` catches, in the hierarchy the
source relies on: `IntegrityError` is a subclass of `SQLAlchemyError`,
which is a subclass of `Exception`.  Each carries the text of `str(e)`. -/
inductive StorageErr where
  | integrity (msg : String)
  | sqlalchemy (msg : String)
  | otherExc (msg : String)
deriving Repr, DecidableEq

/-- A write buffered in the session, not yet committed: `session.add` of a
new object, the flush of attribute assignments on a fetched object
(an UPDATE keyed by the fetched row's primary key), or `session.delete`. -/
inductive PendingOp where
  | insert (it : Item)
  | modify (oldId : Option Nat) (newIt : Item)
  | remove (oid : Option Nat)
deriving Repr, DecidableEq

/-- A SQLAlchemy session: the committed table plus the in-flight writes. -/
structure Session where
  db : List Item
  pending : List PendingOp
deriving Repr, DecidableEq

/-- Largest primary key present in the table (0 when empty); SQLite assigns
`max(rowid) + 1` to an INTEGER PRIMARY KEY left unset on INSERT. -/
def maxId : List Item → Nat
  | [] => 0
  | r :: rs => max (match r.id with | some i => i | none => 0) (maxId rs)

/-- Apply one buffered write to the committed table.  Returns the resulting
table together with the row the ORM object refers to afterwards (what
`session.refresh` re-reads).  Inserting or moving a row onto an already
occupied primary key raises `IntegrityError` (UNIQUE constraint). -/
def applyOp (rows : List Item) : PendingOp → Except StorageErr (List Item × Option Item)
  | .insert it =>
    match it.id with
    | none =>
      let assigned : Item := { it with id := some (maxId rows + 1) }
      .ok (rows ++ [assigned], some assigned)
    | some i =>
      if rows.any (fun r => r.id == some i) then
        .error (.integrity "UNIQUE constraint failed: item.id")
      else
        .ok (rows ++ [it], some it)
  | .modify oldId newIt =>
    if newIt.id != oldId && rows.any (fun r => r.id == newIt.id && r.id != oldId) then
      .error (.integrity "UNIQUE constraint failed: item.id")
    else
      .ok (rows.map (fun r => if r.id == oldId then newIt else r), some newIt)
  | .remove oid =>
    .ok (rows.filter (fun r => r.id != oid), none)

/-- Apply the buffered writes in order; the transaction is atomic, so any
failure leaves the committed table untouched.  The second component is the
row of the last write that produced one. -/
def commitPending (rows : List Item) : List PendingOp → Except StorageErr (List Item × Option Item)
  | [] => .ok (rows, none)
  | op :: ops =>
    match applyOp rows op with
    | .error e => .error e
    | .ok (rows2, res) =>
      match commitPending rows2 ops with
      | .error e => .error e
      | .ok (rows3, res2) =>
        .ok (rows3, match res2 with | some r => some r | none => res)

/-- Model of `session.commit()`.  The injected fault, when present, makes the commit
raise before anything is applied (connectivity failure, etc.); a raising
commit leaves the session dirty — the caller must roll back. -/
def sessionCommit (s : Session) (fault : Option StorageErr) : Except StorageErr (Session × Option Item) :=
  match fault with
  | some e => .error e
  | none =>
    match commitPending s.db s.pending with
    | .error e => .error e
    | .ok (rows, res) => .ok (⟨rows, []⟩, res)

/-- Model of `session.rollback()`: discard every in-flight write. -/
def sessionRollback (s : Session) : Session :=
  ⟨s.db, []⟩

/-- Model of `session.add(item)` for a new object: buffer an INSERT. -/
def sessionAdd (s : Session) (it : Item) : Session :=
  ⟨s.db, s.pending ++ [.insert it]⟩

/-- Model of `session.get(Item, item_id)`: fetch the committed row with that primary
key, or `None`. -/
def sessionGet (s : Session) (item_id : Nat) : Option Item :=
  s.db.find? (fun r => r.id == some item_id)

/-- The single repository-level error kind (`class ItemCRUDError(Exception)`),
carrying a human-readable message. -/
structure ItemCRUDError where
  msg : String
deriving Repr, DecidableEq

/-- Message text of `str(e)` for the caught storage exception. -/
def errText : StorageErr → String
  | .integrity m => m
  | .sqlalchemy m => m
  | .otherExc m => m

/-- The message `create_item` wraps the caught exception in; its `except`
clauses are `IntegrityError`, `SQLAlchemyError`, `Exception`, in that order. -/
def createErrMsg (item : Item) : StorageErr → String
  | .integrity m => "Error de integridad al crear ítem \x27" ++ item.name ++ "\x27: " ++ m
  | .sqlalchemy m => "Error de base de datos al crear ítem \x27" ++ item.name ++ "\x27: " ++ m
  | .otherExc m => "Error inesperado al crear ítem \x27" ++ item.name ++ "\x27: " ++ m

/-- Model of `app.crud.create_item`: add, commit, refresh, return; on any exception,
roll back and raise `ItemCRUDError`. -/
def create_item (s : Session) (item : Item) (fault : Option StorageErr) :
    Session × Except ItemCRUDError Item :=
  let s1 := sessionAdd s item
  match sessionCommit s1 fault with
  | .ok (s2, res) =>
    match res with
    | some it => (s2, .ok it)
    | none => (s2, .ok item)
  | .error e => (sessionRollback s1, .error ⟨createErrMsg item e⟩)

/-- Message wrapping for `get_items`; it has no `IntegrityError` clause, so an
`IntegrityError` is caught by the `SQLAlchemyError` clause. -/
def listErrMsg : StorageErr → String
  | .integrity m => "Error de base de datos al consultar ítems: " ++ m
  | .sqlalchemy m => "Error de base de datos al consultar ítems: " ++ m
  | .otherExc m => "Error inesperado al consultar ítems: " ++ m

/-- Model of `app.crud.get_items`: `session.exec(select(Item)).all()` — every row, in
table order; a read raises no rollback. -/
def get_items (s : Session) (fault : Option StorageErr) :
    Session × Except ItemCRUDError (List Item) :=
  match fault with
  | some e => (s, .error ⟨listErrMsg e⟩)
  | none => (s, .ok s.db)

/-- Message wrapping for `get_item_by_id` (no `IntegrityError` clause). -/
def getErrMsg (item_id : Nat) : StorageErr → String
  | .integrity m => "Error de base de datos al consultar ítem con ID " ++ toString item_id ++ ": " ++ m
  | .sqlalchemy m => "Error de base de datos al consultar ítem con ID " ++ toString item_id ++ ": " ++ m
  | .otherExc m => "Error inesperado al consultar ítem con ID " ++ toString item_id ++ ": " ++ m

/-- Model of `app.crud.get_item_by_id`: `session.get` and return the row or `None`;
no rollback on a read. -/
def get_item_by_id (s : Session) (item_id : Nat) (fault : Option StorageErr) :
    Session × Except ItemCRUDError (Option Item) :=
  match fault with
  | some e => (s, .error ⟨getErrMsg item_id e⟩)
  | none => (s, .ok (sessionGet s item_id))

/-- One field of the JSON update payload; the two field types `Item` has. -/
inductive FieldVal where
  | vint (n : Nat)
  | vstr (v : String)
deriving Repr, DecidableEq

/-- One iteration of `for field, value in item_data.items(): if hasattr(item,
field): setattr(item, field, value)` — `Item` has attributes `id` and
`name`, any other key fails the `hasattr` test and is ignored. -/
def applyField (it : Item) (p : String × FieldVal) : Item :=
  if p.1 = "id" then
    match p.2 with
    | .vint n => { it with id := some n }
    | _ => it
  else if p.1 = "name" then
    match p.2 with
    | .vstr v => { it with name := v }
    | _ => it
  else it

/-- Message wrapping for `update_item` (`IntegrityError` clause first). -/
def updateErrMsg (item_id : Nat) : StorageErr → String
  | .integrity m => "Error de integridad al actualizar ítem con ID " ++ toString item_id ++ ": " ++ m
  | .sqlalchemy m => "Error de base de datos al actualizar ítem con ID " ++ toString item_id ++ ": " ++ m
  | .otherExc m => "Error inesperado al actualizar ítem con ID " ++ toString item_id ++ ": " ++ m

/-- Model of `app.crud.update_item`: fetch by id; `None` when absent (a normal
return); otherwise assign each payload field the object possesses, add,
commit, refresh, return; on exception roll back and raise. -/
def update_item (s : Session) (item_id : Nat) (item_data : List (String × FieldVal))
    (fault : Option StorageErr) : Session × Except ItemCRUDError (Option Item) :=
  match sessionGet s item_id with
  | none => (s, .ok none)
  | some it =>
    let newIt := item_data.foldl applyField it
    let s1 : Session := ⟨s.db, s.pending ++ [.modify it.id newIt]⟩
    match sessionCommit s1 fault with
    | .ok (s2, res) =>
      (s2, .ok (some (match res with | some r => r | none => newIt)))
    | .error e => (sessionRollback s1, .error ⟨updateErrMsg item_id e⟩)

/-- Message wrapping for `delete_item` (no `IntegrityError` clause). -/
def deleteErrMsg (item_id : Nat) : StorageErr → String
  | .integrity m => "Error de base de datos al eliminar ítem con ID " ++ toString item_id ++ ": " ++ m
  | .sqlalchemy m => "Error de base de datos al eliminar ítem con ID " ++ toString item_id ++ ": " ++ m
  | .otherExc m => "Error inesperado al eliminar ítem con ID " ++ toString item_id ++ ": " ++ m

/-- Model of `app.crud.delete_item`: fetch by id; `False` when absent (a normal
return); otherwise `session.delete` and commit, returning `True`; on
exception roll back and raise. -/
def delete_item (s : Session) (item_id : Nat) (fault : Option StorageErr) :
    Session × Except ItemCRUDError Bool :=
  match sessionGet s item_id with
  | none => (s, .ok false)
  | some it =>
    let s1 : Session := ⟨s.db, s.pending ++ [.remove it.id]⟩
    match sessionCommit s1 fault with
    | .ok (s2, _) => (s2, .ok true)
    | .error e => (sessionRollback s1, .error ⟨deleteErrMsg item_id e⟩)

/-
HTTP layer (app/main.py).  Each route handler acquires a fresh session over
the current table (the `get_session` dependency), runs the matching
repository call inside a `try`, and translates exceptions.  An exception is
one of: an `HTTPException` raised in the body (only the 404 presence
checks raise one), the repository's `ItemCRUDError`, or any other
exception (injected as `unexpected`, standing for a failure outside the
repository call, e.g. during response serialization).  FastAPI turns an
uncaught `HTTPException` into a response with its status and detail.
-/

/-- What an exception arriving at a handler's `except` clauses can be. -/
inductive Exc where
  | httpExc (status : Nat) (detail : String)
  | crudExc (msg : String)
  | otherwiseExc (msg : String)
deriving Repr, DecidableEq

/-- Body of a successful response. -/
inductive RespBody where
  | itemBody (it : Item)
  | listBody (l : List Item)
  | emptyBody
deriving Repr, DecidableEq

/-- Outcome of one request. -/
inductive Response where
  | success (status : Nat) (body : RespBody)
  | failure (status : Nat) (detail : String)
deriving Repr, DecidableEq

/-- Exception chain of `create` and `read_all`: `ItemCRUDError` → 400 with the
message; anything else (`HTTPException` included — it is a subclass of
`Exception` and these two handlers have no clause for it) → 500 generic. -/
def plainChain : Exc → Response
  | .crudExc m => .failure 400 m
  | .httpExc _ _ => .failure 500 "Error interno del servidor"
  | .otherwiseExc _ => .failure 500 "Error interno del servidor"

/-- Exception chain of `read_one`, `update` and `delete`:
`except HTTPException: raise` re-raises unchanged, then `ItemCRUDError`
→ 400, then `Exception` → 500 generic. -/
def idChain : Exc → Response
  | .httpExc st d => .failure st d
  | .crudExc m => .failure 400 m
  | .otherwiseExc _ => .failure 500 "Error interno del servidor"

/-- Detail of the 404 the id-keyed handlers raise. -/
def notFoundDetail (item_id : Nat) : String :=
  "Ítem con ID " ++ toString item_id ++ " no encontrado"

/-- Route `POST /items/` (`main.create`): 201 with the created item. -/
def create_route (db : List Item) (item : Item) (fault : Option StorageErr)
    (unexpected : Option String) : List Item × Response :=
  match create_item ⟨db, []⟩ item fault with
  | (s2, .error e) => (s2.db, plainChain (.crudExc e.msg))
  | (s2, .ok it) =>
    match unexpected with
    | some m => (s2.db, plainChain (.otherwiseExc m))
    | none => (s2.db, .success 201 (.itemBody it))

/-- Route `GET /items/` (`main.read_all`): 200 with every item. -/
def read_all_route (db : List Item) (fault : Option StorageErr)
    (unexpected : Option String) : List Item × Response :=
  match get_items ⟨db, []⟩ fault with
  | (s2, .error e) => (s2.db, plainChain (.crudExc e.msg))
  | (s2, .ok l) =>
    match unexpected with
    | some m => (s2.db, plainChain (.otherwiseExc m))
    | none => (s2.db, .success 200 (.listBody l))

/-- Route `GET /items/` + id (`main.read_one`): 200 with the item, or a 404
`HTTPException` when `get_item_by_id` returned `None`. -/
def read_one_route (db : List Item) (item_id : Nat) (fault : Option StorageErr)
    (unexpected : Option String) : List Item × Response :=
  match get_item_by_id ⟨db, []⟩ item_id fault with
  | (s2, .error e) => (s2.db, idChain (.crudExc e.msg))
  | (s2, .ok none) => (s2.db, idChain (.httpExc 404 (notFoundDetail item_id)))
  | (s2, .ok (some it)) =>
    match unexpected with
    | some m => (s2.db, idChain (.otherwiseExc m))
    | none => (s2.db, .success 200 (.itemBody it))

/-- Route `PUT /items/` + id (`main.update`): 200 with the updated item, or a
404 `HTTPException` when `update_item` returned `None`. -/
def update_route (db : List Item) (item_id : Nat) (item_data : List (String × FieldVal))
    (fault : Option StorageErr) (unexpected : Option String) : List Item × Response :=
  match update_item ⟨db, []⟩ item_id item_data fault with
  | (s2, .error e) => (s2.db, idChain (.crudExc e.msg))
  | (s2, .ok none) => (s2.db, idChain (.httpExc 404 (notFoundDetail item_id)))
  | (s2, .ok (some it)) =>
    match unexpected with
    | some m => (s2.db, idChain (.otherwiseExc m))
    | none => (s2.db, .success 200 (.itemBody it))

/-- Route `DELETE /items/` + id (`main.delete`): 204 with no body, or a 404
`HTTPException` when `delete_item` returned `False`. -/
def delete_route (db : List Item) (item_id : Nat) (fault : Option StorageErr)
    (unexpected : Option String) : List Item × Response :=
  match delete_item ⟨db, []⟩ item_id fault with
  | (s2, .error e) => (s2.db, idChain (.crudExc e.msg))
  | (s2, .ok false) => (s2.db, idChain (.httpExc 404 (notFoundDetail item_id)))
  | (s2, .ok true) =>
    match unexpected with
    | some m => (s2.db, idChain (.otherwiseExc m))
    | none => (s2.db, .success 204 .emptyBody)

/-
Helper lemmas shared by the claim theorems.
-/

/-- Every primary key present in the table is bounded by `maxId`. -/
theorem maxId_bound {rows : List Item} {r : Item} {i : Nat}
    (hr : r ∈ rows) (hi : r.id = some i) : i ≤ maxId rows := by
  induction rows with
  | nil => cases hr
  | cons a rs ih =>
    rcases List.mem_cons.mp hr with h | h
    · subst h
      simp only [maxId, hi]
      exact Nat.le_max_left _ _
    · exact Nat.le_trans (ih h) (Nat.le_max_right _ _)

/-- The freshly assigned key `maxId rows + 1` occurs in no existing row. -/
theorem find?_fresh (rows : List Item) :
    rows.find? (fun r => r.id == some (maxId rows + 1)) = none := by
  rw [List.find?_eq_none]
  intro r hr
  simp only [beq_iff_eq]
  intro hid
  have := maxId_bound hr hid
  omega

/-- Assigning a payload field whose key is not `id` leaves `id` unchanged. -/
theorem applyField_id {it : Item} {p : String × FieldVal} (h : p.1 ≠ "id") :
    (applyField it p).id = it.id := by
  rcases p with ⟨k, v⟩
  cases v <;> by_cases hn : k = "name" <;> simp_all [applyField]

/-- Assigning a payload field whose key is not `name` leaves `name` unchanged. -/
theorem applyField_name {it : Item} {p : String × FieldVal} (h : p.1 ≠ "name") :
    (applyField it p).name = it.name := by
  rcases p with ⟨k, v⟩
  cases v <;> by_cases hn : k = "id" <;> simp_all [applyField]

/-- A payload field whose key the item does not possess is ignored. -/
theorem applyField_unknown {it : Item} {p : String × FieldVal}
    (h1 : p.1 ≠ "id") (h2 : p.1 ≠ "name") : applyField it p = it := by
  rcases p with ⟨k, v⟩
  cases v <;> simp_all [applyField]

/-- A payload without the key `id` leaves `id` unchanged. -/
theorem foldl_applyField_id {data : List (String × FieldVal)} (it : Item)
    (h : ∀ p ∈ data, p.1 ≠ "id") : (data.foldl applyField it).id = it.id := by
  induction data generalizing it with
  | nil => rfl
  | cons p ps ih =>
    rw [List.foldl_cons, ih _ (fun q hq => h q (List.mem_cons_of_mem _ hq)),
      applyField_id (h p (List.mem_cons_self _ _))]

/-- A payload without the key `name` leaves `name` unchanged. -/
theorem foldl_applyField_name {data : List (String × FieldVal)} (it : Item)
    (h : ∀ p ∈ data, p.1 ≠ "name") : (data.foldl applyField it).name = it.name := by
  induction data generalizing it with
  | nil => rfl
  | cons p ps ih =>
    rw [List.foldl_cons, ih _ (fun q hq => h q (List.mem_cons_of_mem _ hq)),
      applyField_name (h p (List.mem_cons_self _ _))]

/-- A payload made only of unknown keys leaves the item unchanged. -/
theorem foldl_applyField_unknown {data : List (String × FieldVal)} (it : Item)
    (h : ∀ p ∈ data, p.1 ≠ "id" ∧ p.1 ≠ "name") : data.foldl applyField it = it := by
  induction data generalizing it with
  | nil => rfl
  | cons p ps ih =>
    rw [List.foldl_cons, applyField_unknown (h p (List.mem_cons_self _ _)).1
      (h p (List.mem_cons_self _ _)).2]
    exact ih _ (fun q hq => h q (List.mem_cons_of_mem _ hq))

/-- An update whose payload has no `id` key commits successfully (the row
keeps its primary key, so no UNIQUE violation is possible) and returns the
item with every payload assignment applied and the id untouched. -/
theorem update_no_id_key (s : Session) (item_id : Nat)
    (item_data : List (String × FieldVal)) (it : Item)
    (hp : s.pending = []) (hfind : sessionGet s item_id = some it)
    (hkeys : ∀ p ∈ item_data, p.1 ≠ "id") :
    (update_item s item_id item_data none).2 = .ok (some (item_data.foldl applyField it)) ∧
    (item_data.foldl applyField it).id = it.id := by
  have hidp := foldl_applyField_id it hkeys
  constructor
  · unfold update_item
    rw [hfind]
    simp [sessionCommit, hp, commitPending, applyOp, hidp]
  · exact hidp

/-- On an empty pending list plus one buffered insert of an id-less item, the
commit assigns `maxId + 1` and appends the row. -/
theorem create_item_eq (s : Session) (item : Item) (hp : s.pending = [])
    (hid : item.id = none) :
    create_item s item none =
      (⟨s.db ++ [{ item with id := some (maxId s.db + 1) }], []⟩,
        .ok { item with id := some (maxId s.db + 1) }) := by
  simp [create_item, sessionCommit, sessionAdd, commitPending, applyOp, hp, hid]

/-
Claim theorems.
-/

/-- C1: creating an item with a given name (and no id — the id is
server-assigned) returns an item with a non-null id and the same name, and
a subsequent get by that id returns exactly the item create returned. -/
theorem c1_create_then_get (s : Session) (item : Item)
    (hp : s.pending = []) (hid : item.id = none) :
    create_item s item none =
      (⟨s.db ++ [{ item with id := some (maxId s.db + 1) }], []⟩,
        .ok { item with id := some (maxId s.db + 1) }) ∧
    ({ item with id := some (maxId s.db + 1) } : Item).id ≠ none ∧
    ({ item with id := some (maxId s.db + 1) } : Item).name = item.name ∧
    get_item_by_id (create_item s item none).1 (maxId s.db + 1) none =
      ((create_item s item none).1,
        .ok (some { item with id := some (maxId s.db + 1) })) := by
  have hc := create_item_eq s item hp hid
  refine ⟨hc, by simp, rfl, ?_⟩
  rw [hc]
  unfold get_item_by_id sessionGet
  rw [List.find?_append, find?_fresh]
  simp [List.find?]

/-- Witness for C1 at the concrete input of the spec's example. -/
theorem c1_create_then_get_witness :
    create_item ⟨[], []⟩ ⟨none, "Widget"⟩ none =
      (⟨[⟨some 1, "Widget"⟩], []⟩, .ok ⟨some 1, "Widget"⟩) ∧
    (⟨some 1, "Widget"⟩ : Item).id ≠ none ∧
    (⟨some 1, "Widget"⟩ : Item).name = "Widget" ∧
    get_item_by_id (create_item ⟨[], []⟩ ⟨none, "Widget"⟩ none).1 1 none =
      ((create_item ⟨[], []⟩ ⟨none, "Widget"⟩ none).1, .ok (some ⟨some 1, "Widget"⟩)) :=
  c1_create_then_get ⟨[], []⟩ ⟨none, "Widget"⟩ rfl rfl

/-- C2 counterexample: an update payload containing the key `id` does change
an existing item's id — `Item` possesses an `id` attribute, so the
`hasattr` guard in `update_item` lets the payload overwrite it. -/
theorem c2_update_changes_id_cex :
    (update_item ⟨[⟨some 1, "A"⟩], []⟩ 1 [("id", FieldVal.vint 2)] none).2 =
      .ok (some ⟨some 2, "A"⟩) ∧ (⟨some 2, "A"⟩ : Item).id ≠ some 1 := by
  exact ⟨rfl, by simp⟩

/-- C2 (amended): the id is assigned on creation, and an update whose payload
does not contain the key `id` never changes the item's id; a payload that
does contain `id` can change it. -/
theorem c2_id_stable_without_id_key (s : Session) (item_id : Nat)
    (item_data : List (String × FieldVal)) (it : Item)
    (hp : s.pending = []) (hfind : sessionGet s item_id = some it)
    (hkeys : ∀ p ∈ item_data, p.1 ≠ "id") :
    (update_item s item_id item_data none).2 = .ok (some (item_data.foldl applyField it)) ∧
    (item_data.foldl applyField it).id = it.id :=
  update_no_id_key s item_id item_data it hp hfind hkeys

/-- Witness for the amended C2: a name-only update leaves the id at 1. -/
theorem c2_id_stable_without_id_key_witness :
    (update_item ⟨[⟨some 1, "A"⟩], []⟩ 1 [("name", FieldVal.vstr "B")] none).2 =
      .ok (some ⟨some 1, "B"⟩) ∧ (⟨some 1, "B"⟩ : Item).id = some 1 :=
  c2_id_stable_without_id_key ⟨[⟨some 1, "A"⟩], []⟩ 1 [("name", FieldVal.vstr "B")]
    ⟨some 1, "A"⟩ rfl rfl (by simp)

/-- C4: a missing row is never a repository error — get returns `None`,
update returns `None`, delete returns `False`, all as normal returns
(`Except.ok`), with no exception raised. -/
theorem c4_missing_id_is_normal_return (s : Session) (item_id : Nat)
    (item_data : List (String × FieldVal)) (habs : sessionGet s item_id = none) :
    get_item_by_id s item_id none = (s, .ok none) ∧
    update_item s item_id item_data none = (s, .ok none) ∧
    delete_item s item_id none = (s, .ok false) := by
  refine ⟨?_, ?_, ?_⟩
  · simp [get_item_by_id, habs]
  · simp [update_item, habs]
  · simp [delete_item, habs]

/-- Witness for C4: id 7 on the empty table. -/
theorem c4_missing_id_is_normal_return_witness :
    get_item_by_id ⟨[], []⟩ 7 none = (⟨[], []⟩, .ok none) ∧
    update_item ⟨[], []⟩ 7 [] none = (⟨[], []⟩, .ok none) ∧
    delete_item ⟨[], []⟩ 7 none = (⟨[], []⟩, .ok false) :=
  c4_missing_id_is_normal_return ⟨[], []⟩ 7 [] rfl

/-- C8: the list operation returns all items of the table in insertion
order (the table is kept in insertion order and creation appends at the
end), possibly the empty sequence. -/
theorem c8_list_all_insertion_order (s : Session) (item : Item)
    (hp : s.pending = []) (hid : item.id = none) :
    get_items s none = (s, .ok s.db) ∧
    (create_item s item none).1.db = s.db ++ [{ item with id := some (maxId s.db + 1) }] := by
  refine ⟨rfl, ?_⟩
  rw [create_item_eq s item hp hid]

/-- Witness for C8 on a one-row table. -/
theorem c8_list_all_insertion_order_witness :
    get_items ⟨[⟨some 1, "A"⟩], []⟩ none = (⟨[⟨some 1, "A"⟩], []⟩, .ok [⟨some 1, "A"⟩]) ∧
    (create_item ⟨[⟨some 1, "A"⟩], []⟩ ⟨none, "B"⟩ none).1.db =
      [⟨some 1, "A"⟩] ++ [⟨some 2, "B"⟩] :=
  c8_list_all_insertion_order ⟨[⟨some 1, "A"⟩], []⟩ ⟨none, "B"⟩ rfl rfl

/-- C10: the 404 `HTTPException` raised for an absent id is re-raised
unchanged by the id-keyed handlers' own `except HTTPException` clause
(`idChain` maps it to itself), and each of the three id-keyed routes
responds 404 for an absent id — never 400 or 500 — whatever other
exception could have followed. -/
theorem c10_404_passes_through (db : List Item) (item_id : Nat)
    (item_data : List (String × FieldVal)) (u : Option String)
    (habs : db.find? (fun r => r.id == some item_id) = none) :
    (∀ st d, idChain (.httpExc st d) = .failure st d) ∧
    (read_one_route db item_id none u).2 = .failure 404 (notFoundDetail item_id) ∧
    (update_route db item_id item_data none u).2 = .failure 404 (notFoundDetail item_id) ∧
    (delete_route db item_id none u).2 = .failure 404 (notFoundDetail item_id) := by
  refine ⟨fun st d => rfl, ?_, ?_, ?_⟩
  · simp [read_one_route, get_item_by_id, sessionGet, habs, idChain]
  · simp [update_route, update_item, sessionGet, habs, idChain]
  · simp [delete_route, delete_item, sessionGet, habs, idChain]

/-- Witness for C10: id 1 on the empty table. -/
theorem c10_404_passes_through_witness :
    (∀ st d, idChain (.httpExc st d) = .failure st d) ∧
    (read_one_route [] 1 none none).2 = .failure 404 (notFoundDetail 1) ∧
    (update_route [] 1 [] none none).2 = .failure 404 (notFoundDetail 1) ∧
    (delete_route [] 1 none none).2 = .failure 404 (notFoundDetail 1) :=
  c10_404_passes_through [] 1 [] none rfl

/-- C3: every failing write — create, update or delete, under any storage
failure — is rolled back before the repository error is reported: when the
operation returns the error, the session it leaves behind carries the
unchanged committed table and no in-flight write.  In particular a create
that violates the integrity constraint persists no row. -/
theorem c3_write_failure_rolls_back (s : Session) (item : Item) (item_id : Nat)
    (item_data : List (String × FieldVal)) (fault : Option StorageErr) :
    (∀ e, (create_item s item fault).2 = .error e →
      (create_item s item fault).1 = ⟨s.db, []⟩) ∧
    (∀ e, (update_item s item_id item_data fault).2 = .error e →
      (update_item s item_id item_data fault).1 = ⟨s.db, []⟩) ∧
    (∀ e, (delete_item s item_id fault).2 = .error e →
      (delete_item s item_id fault).1 = ⟨s.db, []⟩) := by
  refine ⟨fun e h => ?_, fun e h => ?_, fun e h => ?_⟩
  · rcases hc : sessionCommit ⟨s.db, s.pending ++ [.insert item]⟩ fault with e2 | ⟨s2, res⟩
    · simp [create_item, sessionAdd, hc, sessionRollback]
    · cases res <;> simp [create_item, sessionAdd, hc] at h
  · rcases hg : sessionGet s item_id with _ | it
    · simp [update_item, hg] at h
    · rcases hc : sessionCommit
          ⟨s.db, s.pending ++ [.modify it.id (item_data.foldl applyField it)]⟩ fault with
        e2 | ⟨s2, res⟩
      · simp [update_item, hg, hc, sessionRollback]
      · simp [update_item, hg, hc] at h
  · rcases hg : sessionGet s item_id with _ | it
    · simp [delete_item, hg] at h
    · rcases hc : sessionCommit ⟨s.db, s.pending ++ [.remove it.id]⟩ fault with
        e2 | ⟨s2, res⟩
      · simp [delete_item, hg, hc, sessionRollback]
      · simp [delete_item, hg, hc] at h

/-- Witness for C3: a create whose explicit id collides with an existing row
raises and leaves the one-row table exactly as it was. -/
theorem c3_write_failure_rolls_back_witness :
    (create_item ⟨[⟨some 1, "A"⟩], []⟩ ⟨some 1, "B"⟩ none).1 = ⟨[⟨some 1, "A"⟩], []⟩ :=
  (c3_write_failure_rolls_back ⟨[⟨some 1, "A"⟩], []⟩ ⟨some 1, "B"⟩ 0 [] none).1
    ⟨createErrMsg ⟨some 1, "B"⟩ (.integrity "UNIQUE constraint failed: item.id")⟩ rfl

/-- C5: on every route, a repository error is answered with 400 carrying the
repository error's own message, and any other escaping exception is
answered with 500 carrying only the fixed generic message, never the
original exception's message. -/
theorem c5_error_translation (db : List Item) (item it : Item) (item_id : Nat)
    (item_data : List (String × FieldVal)) (fault : Option StorageErr)
    (u : Option String) (m : String) :
    (∀ e, (create_item ⟨db, []⟩ item fault).2 = .error e →
      (create_route db item fault u).2 = .failure 400 e.msg) ∧
    (∀ it2, (create_item ⟨db, []⟩ item fault).2 = .ok it2 →
      (create_route db item fault (some m)).2 = .failure 500 "Error interno del servidor") ∧
    (∀ e, (get_items ⟨db, []⟩ fault).2 = .error e →
      (read_all_route db fault u).2 = .failure 400 e.msg) ∧
    (∀ l, (get_items ⟨db, []⟩ fault).2 = .ok l →
      (read_all_route db fault (some m)).2 = .failure 500 "Error interno del servidor") ∧
    (∀ e, (get_item_by_id ⟨db, []⟩ item_id fault).2 = .error e →
      (read_one_route db item_id fault u).2 = .failure 400 e.msg) ∧
    ((get_item_by_id ⟨db, []⟩ item_id fault).2 = .ok (some it) →
      (read_one_route db item_id fault (some m)).2 = .failure 500 "Error interno del servidor") ∧
    (∀ e, (update_item ⟨db, []⟩ item_id item_data fault).2 = .error e →
      (update_route db item_id item_data fault u).2 = .failure 400 e.msg) ∧
    ((update_item ⟨db, []⟩ item_id item_data fault).2 = .ok (some it) →
      (update_route db item_id item_data fault (some m)).2 = .failure 500 "Error interno del servidor") ∧
    (∀ e, (delete_item ⟨db, []⟩ item_id fault).2 = .error e →
      (delete_route db item_id fault u).2 = .failure 400 e.msg) ∧
    ((delete_item ⟨db, []⟩ item_id fault).2 = .ok true →
      (delete_route db item_id fault (some m)).2 = .failure 500 "Error interno del servidor") := by
  refine ⟨fun e h => ?_, fun it2 h => ?_, fun e h => ?_, fun l h => ?_, fun e h => ?_,
    fun h => ?_, fun e h => ?_, fun h => ?_, fun e h => ?_, fun h => ?_⟩
  · rcases hcr : create_item ⟨db, []⟩ item fault with ⟨s2, r⟩
    rw [hcr] at h; cases h
    simp [create_route, hcr, plainChain]
  · rcases hcr : create_item ⟨db, []⟩ item fault with ⟨s2, r⟩
    rw [hcr] at h; cases h
    simp [create_route, hcr, plainChain]
  · rcases hcr : get_items ⟨db, []⟩ fault with ⟨s2, r⟩
    rw [hcr] at h; cases h
    simp [read_all_route, hcr, plainChain]
  · rcases hcr : get_items ⟨db, []⟩ fault with ⟨s2, r⟩
    rw [hcr] at h; cases h
    simp [read_all_route, hcr, plainChain]
  · rcases hcr : get_item_by_id ⟨db, []⟩ item_id fault with ⟨s2, r⟩
    rw [hcr] at h; cases h
    simp [read_one_route, hcr, idChain]
  · rcases hcr : get_item_by_id ⟨db, []⟩ item_id fault with ⟨s2, r⟩
    rw [hcr] at h; cases h
    simp [read_one_route, hcr, idChain]
  · rcases hcr : update_item ⟨db, []⟩ item_id item_data fault with ⟨s2, r⟩
    rw [hcr] at h; cases h
    simp [update_route, hcr, idChain]
  · rcases hcr : update_item ⟨db, []⟩ item_id item_data fault with ⟨s2, r⟩
    rw [hcr] at h; cases h
    simp [update_route, hcr, idChain]
  · rcases hcr : delete_item ⟨db, []⟩ item_id fault with ⟨s2, r⟩
    rw [hcr] at h; cases h
    simp [delete_route, hcr, idChain]
  · rcases hcr : delete_item ⟨db, []⟩ item_id fault with ⟨s2, r⟩
    rw [hcr] at h; cases h
    simp [delete_route, hcr, idChain]

/-- Witness for C5: the duplicate-id create answers 400 with the repository
message, and a delete that then fails unexpectedly answers 500 generic. -/
theorem c5_error_translation_witness :
    (create_route [⟨some 1, "A"⟩] ⟨some 1, "B"⟩ none none).2 =
      .failure 400 (createErrMsg ⟨some 1, "B"⟩ (.integrity "UNIQUE constraint failed: item.id")) ∧
    (delete_route [⟨some 1, "A"⟩] 1 none (some "boom")).2 =
      .failure 500 "Error interno del servidor" :=
  ⟨(c5_error_translation [⟨some 1, "A"⟩] ⟨some 1, "B"⟩ ⟨some 1, "A"⟩ 1 [] none none "boom").1
      ⟨createErrMsg ⟨some 1, "B"⟩ (.integrity "UNIQUE constraint failed: item.id")⟩ rfl,
    (c5_error_translation [⟨some 1, "A"⟩] ⟨some 1, "B"⟩ ⟨some 1, "A"⟩ 1 [] none none
      "boom").2.2.2.2.2.2.2.2.2 rfl⟩

/-- C6: deleting an existing id responds 204 with an empty body, a get on
that id afterwards responds 404, and deleting the same id again responds
404 as well. -/
theorem c6_delete_then_404 (db : List Item) (item_id : Nat) (it : Item) (u1 u2 : Option String)
    (hfind : db.find? (fun r => r.id == some item_id) = some it) :
    delete_route db item_id none none =
      (db.filter (fun r => r.id != some item_id), .success 204 .emptyBody) ∧
    (read_one_route (db.filter (fun r => r.id != some item_id)) item_id none u1).2 =
      .failure 404 (notFoundDetail item_id) ∧
    (delete_route (db.filter (fun r => r.id != some item_id)) item_id none u2).2 =
      .failure 404 (notFoundDetail item_id) := by
  have hid : it.id = some item_id := by
    have := List.find?_some hfind
    simpa using this
  have habs : (db.filter (fun r => r.id != some item_id)).find?
      (fun r => r.id == some item_id) = none := by
    rw [List.find?_eq_none]
    intro r hr
    have h2 := (List.mem_filter.mp hr).2
    simp only [bne_iff_ne, ne_eq] at h2
    simp [h2]
  refine ⟨?_, ?_, ?_⟩
  · simp [delete_route, delete_item, sessionGet, hfind, sessionCommit, commitPending,
      applyOp, hid]
  · simp [read_one_route, get_item_by_id, sessionGet, habs, idChain]
  · simp [delete_route, delete_item, sessionGet, habs, idChain]

/-- Witness for C6 on the one-row table with id 1. -/
theorem c6_delete_then_404_witness :
    delete_route [⟨some 1, "A"⟩] 1 none none =
      ([⟨some 1, "A"⟩].filter (fun r => r.id != some 1), .success 204 .emptyBody) ∧
    (read_one_route ([⟨some 1, "A"⟩].filter (fun r => r.id != some 1)) 1 none none).2 =
      .failure 404 (notFoundDetail 1) ∧
    (delete_route ([⟨some 1, "A"⟩].filter (fun r => r.id != some 1)) 1 none none).2 =
      .failure 404 (notFoundDetail 1) :=
  c6_delete_then_404 [⟨some 1, "A"⟩] 1 ⟨some 1, "A"⟩ none none rfl

/-- C7: updating an existing id overwrites exactly the payload fields the
item possesses — a name-only payload changes only the name, a payload
without some field's key leaves that field unchanged, and payload keys the
item does not possess are ignored. -/
theorem c7_update_fields (s : Session) (item_id : Nat) (it : Item) (v : String)
    (item_data : List (String × FieldVal))
    (hp : s.pending = []) (hfind : sessionGet s item_id = some it) :
    (update_item s item_id [("name", FieldVal.vstr v)] none).2 = .ok (some ⟨it.id, v⟩) ∧
    ((∀ p ∈ item_data, p.1 ≠ "name") → ∀ it2,
      (update_item s item_id item_data none).2 = .ok (some it2) → it2.name = it.name) ∧
    ((∀ p ∈ item_data, p.1 ≠ "id") →
      (update_item s item_id item_data none).2 = .ok (some (item_data.foldl applyField it)) ∧
      (item_data.foldl applyField it).id = it.id) ∧
    ((∀ p ∈ item_data, p.1 ≠ "id" ∧ p.1 ≠ "name") →
      (update_item s item_id item_data none).2 = .ok (some it)) := by
  refine ⟨?_, fun hnames it2 h => ?_,
    fun hk => update_no_id_key s item_id item_data it hp hfind hk, fun hk => ?_⟩
  · have h1 := (update_no_id_key s item_id [("name", FieldVal.vstr v)] it hp hfind
      (by simp)).1
    have hfold : ([("name", FieldVal.vstr v)].foldl applyField it) = ⟨it.id, v⟩ := rfl
    rw [hfold] at h1
    exact h1
  · have hname := foldl_applyField_name it hnames
    unfold update_item at h
    rw [hfind] at h
    simp only [hp, List.nil_append, sessionCommit, commitPending, applyOp] at h
    by_cases hg : ((item_data.foldl applyField it).id != it.id &&
        s.db.any fun r => r.id == (item_data.foldl applyField it).id && r.id != it.id) = true
    · simp [hg] at h
    · simp [hg] at h
      subst h
      exact hname
  · have h4 := (update_no_id_key s item_id item_data it hp hfind
      (fun p hp2 => (hk p hp2).1)).1
    rw [foldl_applyField_unknown it hk] at h4
    exact h4

/-- Witness for C7: a name-only update returns the item with only the name
changed, and an unknown-key payload returns the item unchanged. -/
theorem c7_update_fields_witness :
    (update_item ⟨[⟨some 1, "A"⟩], []⟩ 1 [("name", FieldVal.vstr "New")] none).2 =
      .ok (some ⟨some 1, "New"⟩) ∧
    (update_item ⟨[⟨some 1, "A"⟩], []⟩ 1 [("color", FieldVal.vstr "red")] none).2 =
      .ok (some ⟨some 1, "A"⟩) :=
  ⟨(c7_update_fields ⟨[⟨some 1, "A"⟩], []⟩ 1 ⟨some 1, "A"⟩ "New" [] rfl rfl).1,
    (c7_update_fields ⟨[⟨some 1, "A"⟩], []⟩ 1 ⟨some 1, "A"⟩ "New"
      [("color", FieldVal.vstr "red")] rfl rfl).2.2.2
      (by intro p hp2; simp at hp2; subst hp2; exact ⟨by decide, by decide⟩)⟩

/-- C9 counterexample: a storage failure on the list route is answered with
400 (the uniform `ItemCRUDError` clause of `read_all`), so 500 is not the
route's only failure response. -/
theorem c9_list_route_400_cex :
    (read_all_route [] (some (StorageErr.sqlalchemy "fallo de conexión")) none).2 =
      .failure 400 "Error de base de datos al consultar ítems: fallo de conexión" ∧
    (400 : Nat) ≠ 500 := by
  exact ⟨rfl, by decide⟩

/-- C9 (amended): the list route's failure responses are 400 carrying the
repository error's message when the repository raises, and 500 with the
generic message for an unexpected error; no failure of this route is a
404. -/
theorem c9_list_route_failures (db : List Item) (fault : Option StorageErr)
    (u : Option String) (m : String) :
    (∀ e, (get_items ⟨db, []⟩ fault).2 = .error e →
      (read_all_route db fault u).2 = .failure 400 e.msg) ∧
    (∀ st d, (read_all_route db fault u).2 = .failure st d → st = 400 ∨ st = 500) ∧
    (∀ l, (get_items ⟨db, []⟩ fault).2 = .ok l →
      (read_all_route db fault (some m)).2 = .failure 500 "Error interno del servidor") := by
  refine ⟨fun e h => ?_, fun st d h => ?_, fun l h => ?_⟩
  · rcases hcr : get_items ⟨db, []⟩ fault with ⟨s2, r⟩
    rw [hcr] at h; cases h
    simp [read_all_route, hcr, plainChain]
  · cases fault with
    | none =>
      cases u with
      | none => simp [read_all_route, get_items] at h
      | some m2 =>
        simp [read_all_route, get_items, plainChain] at h
        exact Or.inr h.1.symm
    | some f =>
      simp [read_all_route, get_items, plainChain] at h
      exact Or.inl h.1.symm
  · cases fault with
    | none => simp [read_all_route, get_items, plainChain]
    | some f => simp [get_items] at h

/-- Witness for the amended C9: the storage failure answers 400 with the
repository message. -/
theorem c9_list_route_failures_witness :
    (read_all_route [] (some (StorageErr.sqlalchemy "fallo")) none).2 =
      .failure 400 "Error de base de datos al consultar ítems: fallo" :=
  (c9_list_route_failures [] (some (StorageErr.sqlalchemy "fallo")) none "m").1
    ⟨"Error de base de datos al consultar ítems: fallo"⟩ rfl

end ItemApp
